import Mathlib

/-!
Shallow embedding of `aiohttp_jinja2/__init__.py` (version 1.2.0.a).

Python dicts are modelled as association lists in insertion order
(`PyDict`), with lookup reading the first binding, assignment replacing
the first binding or appending, and `dict.update` folding assignments in
order — faithfully reproducing lookup/override semantics of real dicts
(which never carry duplicate keys; theorems that need this uniqueness
take a `Nodup` hypothesis on the keys).

The jinja2 engine is opaque: an environment carries `is_async` and a
template table, a template carries its `render` and `render_async`
entry points as abstract functions from the context to the produced
text.  `web.HTTPInternalServerError` becomes an error value carrying
`reason` and `text`; the three distinct raise sites of `render_string`
are tagged with an `ErrorKind` naming the site.
-/

universe u

/-- A Python dict with string keys and values in `V`, as an association
list in insertion order. -/
abbrev PyDict (V : Type u) := List (String × V)

/-- Python `d[k]` / `d.get(k)`: the first binding wins (a real dict has
unique keys, so there is at most one). -/
def PyDict.get? {V : Type u} : PyDict V → String → Option V
  | [], _ => none
  | (k', v) :: rest, k => if k = k' then some v else PyDict.get? rest k

/-- Python `d[k] = v`: replace the first binding of `k` if present, else
append the new binding at the end. -/
def PyDict.set {V : Type u} : PyDict V → String → V → PyDict V
  | [], k, v => [(k, v)]
  | (k', v') :: rest, k, v =>
    if k = k' then (k, v) :: rest else (k', v') :: PyDict.set rest k v

/-- Python `d.update(u)` (and, up to copying `d` first, `dict(d, **u)`):
apply every binding of `u` to `d`, in `u`'s order. -/
def PyDict.update {V : Type u} (d u : PyDict V) : PyDict V :=
  u.foldl (fun acc kv => PyDict.set acc kv.1 kv.2) d

/-- The keys of a dict, in insertion order. -/
def PyDict.keys {V : Type u} (d : PyDict V) : List String :=
  d.map Prod.fst

/-- A render context: a string-keyed mapping with values in `V`. -/
abbrev Ctx (V : Type u) := PyDict V

/-- A compiled template, reduced to the engine contract the code uses:
its synchronous `render` and asynchronous `render_async` entry points,
each producing text from a context. -/
structure Template (V : Type u) where
  render : Ctx V → String
  render_async : Ctx V → String

/-- A jinja2 environment, reduced to what the code reads: the
`is_async` capability flag and the template table behind
`get_template`. -/
structure Env (V : Type u) where
  is_async : Bool
  templates : PyDict (Template V)

/-- `env.get_template(name)`; `none` models `jinja2.TemplateNotFound`. -/
def Env.get_template {V : Type u} (env : Env V) (name : String) : Option (Template V) :=
  PyDict.get? env.templates name

/-- The slice of an aiohttp request the code touches: the per-request
store's `REQUEST_CONTEXT_KEY` entry (`none` = key absent) and the
`config_dict` view in which environments live under their `app_key`. -/
structure Request (V : Type u) where
  ctxEntry : Option (Ctx V)
  config_dict : PyDict (Env V)

/-- Labels for the three distinct `raise web.HTTPInternalServerError`
sites of `render_string`, named after the spec's error taxonomy. -/
inductive ErrorKind
  | environmentNotConfigured
  | templateNotFound
  | invalidContext
deriving DecidableEq

/-- `web.HTTPInternalServerError(reason=..., text=...)` as raised by
`render_string`, tagged with the raise site. -/
structure HTTPInternalServerError where
  kind : ErrorKind
  reason : String
  text : String
deriving DecidableEq

/-- A single-quote character, for building the exact Python messages. -/
def squote : String := String.singleton (Char.ofNat 39)

/-- The message of the environment-missing raise site (lines 63-67). -/
def envNotInitializedMsg (app_key : String) : String :=
  "Template engine is not initialized, call aiohttp_jinja2.setup(..., app_key="
    ++ app_key ++ ") first"

/-- The message of the template-missing raise site (line 75). -/
def templateNotFoundMsg (template_name : String) : String :=
  ("Template " ++ squote) ++ template_name ++ (squote ++ " not found")

/-- The message of the invalid-context raise site (line 78). -/
def contextNotMappingMsg (type_name : String) : String :=
  "context should be mapping, not " ++ type_name

/-- The `context` argument of `render_string`: either a `Mapping`, or
some other object, carried with the display string of its Python type
(what `"{}".format(type(context))` yields) for the error message. -/
inductive ContextArg (V : Type u)
  | mapping (d : Ctx V)
  | nonMapping (type_name : String)

/-- Python truthiness of `request.get(REQUEST_CONTEXT_KEY)`: falsy when
the entry is absent or an empty dict. -/
def truthyCtxEntry {V : Type u} : Option (Ctx V) → Bool
  | some (_ :: _) => true
  | _ => false

/-- `render_string` (lines 53-87): resolve the environment from the
request's `config_dict` under `app_key`, resolve the template, check
the context is a mapping, merge the per-request accumulated context in
when its entry is truthy, and call the engine's async or sync render
according to `env.is_async`. -/
def render_string {V : Type u} (template_name : String) (request : Request V)
    (context : ContextArg V) (app_key : String) :
    Except HTTPInternalServerError String :=
  match PyDict.get? request.config_dict app_key with
  | none =>
    .error ⟨.environmentNotConfigured, envNotInitializedMsg app_key,
            envNotInitializedMsg app_key⟩
  | some env =>
    match env.get_template template_name with
    | none =>
      .error ⟨.templateNotFound, templateNotFoundMsg template_name,
              templateNotFoundMsg template_name⟩
    | some tmpl =>
      match context with
      | .nonMapping type_name =>
        .error ⟨.invalidContext, contextNotMappingMsg type_name,
                contextNotMappingMsg type_name⟩
      | .mapping ctx =>
        let ctx := if truthyCtxEntry request.ctxEntry
          then PyDict.update (request.ctxEntry.getD []) ctx
          else ctx
        .ok (if env.is_async then tmpl.render_async ctx else tmpl.render ctx)

/-- The aiohttp response attributes the code assigns. -/
structure Response where
  status : Nat
  content_type : String
  charset : String
  text : String
deriving DecidableEq

/-- `render_template` (lines 90-109): `context=None` becomes `{}`, text
production is delegated to `render_string` (whose error propagates
unchanged), and on success the response carries the given `status`,
`content_type = "text/html"`, `charset = encoding`, and the text. -/
def render_template {V : Type u} (template_name : String) (request : Request V)
    (context : Option (ContextArg V)) (app_key encoding : String) (status : Nat) :
    Except HTTPInternalServerError Response :=
  let context := context.getD (.mapping [])
  match render_string template_name request context app_key with
  | .error e => .error e
  | .ok text => .ok ⟨status, "text/html", encoding, text⟩

/-- A positional argument of a wrapped handler: a plain request object,
or a class-based view (`AbstractView`) exposing the request as its
`.request` attribute. -/
inductive PosArg (V : Type u)
  | requestObj (r : Request V)
  | viewObj (r : Request V)

/-- Request resolution of the decorator (lines 135-139): `args[0].request`
when `args[0]` is an `AbstractView`, else `args[-1]`; `none` models the
IndexError Python would raise on an empty `args`. -/
def resolve_request {V : Type u} : List (PosArg V) → Option (PosArg V)
  | [] => none
  | .viewObj r :: _ => some (.requestObj r)
  | a :: rest => some ((a :: rest).getLast (List.cons_ne_nil a rest))

/-- The awaited return value of the wrapped handler: either already a
`web.StreamResponse`, or a render context (possibly `None`). -/
inductive HandlerReturn (V : Type u)
  | response (r : Response)
  | context (c : Option (ContextArg V))

/-- The outcome of one call to the decorator's wrapped handler. -/
inductive WrappedResult
  | passthrough (r : Response)
  | rendered (r : Response)
  | failed (e : HTTPInternalServerError)
deriving DecidableEq

/-- The wrapped handler built by the `template(...)` decorator
(lines 112-152), after the handler's result has been awaited: a
`StreamResponse` result is returned as is; otherwise the request is
resolved from the positional arguments, `render_template` runs with its
default status 200, and the decorator's `status` is forced onto the
response via `set_status`.  `none` covers the paths the embedding leaves
outside the model (empty `args`, or a view object standing where a
request is required). -/
def template_wrapped {V : Type u} (template_name app_key encoding : String)
    (status : Nat) (args : List (PosArg V)) (handler_result : HandlerReturn V) :
    Option WrappedResult :=
  match handler_result with
  | .response r => some (.passthrough r)
  | .context c =>
    match resolve_request args with
    | none => none
    | some (.viewObj _) => none
    | some (.requestObj req) =>
      match render_template template_name req c app_key encoding 200 with
      | .error e => some (.failed e)
      | .ok resp => some (.rendered { resp with status := status })

/-- The per-request mutable state as `context_processors_middleware`
sees it: the `REQUEST_CONTEXT_KEY` entry of the request's store. -/
structure ReqState (V : Type u) where
  ctxEntry : Option (Ctx V)

/-- A context processor: an async function of the request returning a
mapping; here a function of the request state at the moment it is
awaited. -/
abbrev Processor (V : Type u) := ReqState V → Ctx V

/-- `context_processors_middleware` (lines 156-166) up to the final
handler call: initialize the `REQUEST_CONTEXT_KEY` entry to `{}` if the
key is absent, then iterate the `APP_CONTEXT_PROCESSORS_KEY` sequence
(passed here as `procs`) in order, awaiting each processor on the
current request and merging its result into the accumulated dict with
`update`. -/
def context_processors_middleware {V : Type u} (procs : List (Processor V))
    (s : ReqState V) : ReqState V :=
  let s0 : ReqState V := match s.ctxEntry with
    | none => ⟨some []⟩
    | some c => ⟨some c⟩
  procs.foldl
    (fun st p => ⟨some (PyDict.update (st.ctxEntry.getD []) (p st))⟩) s0

/-- `request_processor` (lines 169-170): the built-in processor exposing
the request itself under the key `request`; the request is injected as
an opaque value by the caller of the model. -/
def request_processor {V : Type u} (request_value : V) : Ctx V :=
  [("request", request_value)]

/-- Concrete fixture: a template whose sync render shows the binding of
`x` and whose async render marks itself, so renders are distinguishable. -/
def sampleTemplate : Template Nat :=
  ⟨fun c => toString ((PyDict.get? c "x").getD 0),
   fun c => "async:" ++ toString ((PyDict.get? c "x").getD 0)⟩

/-- Concrete fixture: a sync environment holding `sampleTemplate`
under the name `t`. -/
def sampleEnv : Env Nat := ⟨false, [("t", sampleTemplate)]⟩

/-- Concrete fixture: a request with accumulated context `k=1` and
`sampleEnv` configured under the key `e`. -/
def sampleRequest : Request Nat := ⟨some [("k", 1)], [("e", sampleEnv)]⟩

/-! Lemma layer: lookup/override facts about `PyDict`. -/

theorem PyDict.get_set {V : Type u} (d : PyDict V) (k k' : String) (v : V) :
    PyDict.get? (PyDict.set d k v) k' = if k' = k then some v else PyDict.get? d k' := by
  induction d with
  | nil => simp [PyDict.set, PyDict.get?]
  | cons hd tl ih =>
    obtain ⟨k0, v0⟩ := hd
    by_cases hk : k = k0
    · subst hk
      by_cases hk' : k' = k <;> simp [PyDict.set, PyDict.get?, hk']
    · by_cases hk' : k' = k0
      · subst hk'
        simp [PyDict.set, PyDict.get?, hk, Ne.symm hk]
      · simp [PyDict.set, PyDict.get?, hk, hk', ih]

theorem PyDict.get_eq_none_of_not_mem_keys {V : Type u} (d : PyDict V) (k : String)
    (h : k ∉ PyDict.keys d) : PyDict.get? d k = none := by
  induction d with
  | nil => simp [PyDict.get?]
  | cons hd tl ih =>
    simp [PyDict.keys] at h
    simp [PyDict.get?, h.1, ih (by simp [PyDict.keys, h.2])]

theorem PyDict.keys_cons {V : Type u} (k : String) (v : V) (tl : PyDict V) :
    PyDict.keys ((k, v) :: tl) = k :: PyDict.keys tl := rfl

theorem PyDict.update_cons {V : Type u} (d : PyDict V) (k : String) (v : V) (u : PyDict V) :
    PyDict.update d ((k, v) :: u) = PyDict.update (PyDict.set d k v) u := rfl

theorem PyDict.update_get_of_none {V : Type u} (d u : PyDict V) (k : String)
    (h : PyDict.get? u k = none) :
    PyDict.get? (PyDict.update d u) k = PyDict.get? d k := by
  induction u generalizing d with
  | nil => rfl
  | cons hd tl ih =>
    obtain ⟨k0, v0⟩ := hd
    simp only [PyDict.get?] at h
    by_cases hk : k = k0
    · simp [hk] at h
    · simp only [hk, if_false] at h
      rw [PyDict.update_cons, ih _ h, PyDict.get_set]
      simp [hk]

theorem PyDict.update_get_of_mem {V : Type u} (d u : PyDict V) (k : String) (v : V)
    (hnd : (PyDict.keys u).Nodup) (h : PyDict.get? u k = some v) :
    PyDict.get? (PyDict.update d u) k = some v := by
  induction u generalizing d with
  | nil => simp [PyDict.get?] at h
  | cons hd tl ih =>
    obtain ⟨k0, v0⟩ := hd
    rw [PyDict.keys_cons, List.nodup_cons] at hnd
    simp only [PyDict.get?] at h
    by_cases hk : k = k0
    · simp only [hk, if_true] at h
      subst hk
      rw [PyDict.update_cons,
          PyDict.update_get_of_none _ _ _
            (PyDict.get_eq_none_of_not_mem_keys _ _ hnd.1),
          PyDict.get_set]
      simp [h]
    · simp only [hk, if_false] at h
      rw [PyDict.update_cons]
      exact ih _ hnd.2 h

theorem PyDict.set_eq_append {V : Type u} (d : PyDict V) (k : String) (v : V)
    (h : PyDict.get? d k = none) : PyDict.set d k v = d ++ [(k, v)] := by
  induction d with
  | nil => rfl
  | cons hd tl ih =>
    obtain ⟨k0, v0⟩ := hd
    simp only [PyDict.get?] at h
    by_cases hk : k = k0
    · simp [hk] at h
    · simp only [hk, if_false] at h
      simp [PyDict.set, hk, ih h]

theorem PyDict.get_append {V : Type u} (d₁ d₂ : PyDict V) (k : String) :
    PyDict.get? (d₁ ++ d₂) k =
      match PyDict.get? d₁ k with
      | some v => some v
      | none => PyDict.get? d₂ k := by
  induction d₁ with
  | nil => simp [PyDict.get?]
  | cons hd tl ih =>
    obtain ⟨k0, v0⟩ := hd
    by_cases hk : k = k0 <;> simp [PyDict.get?, hk, ih]

theorem PyDict.update_eq_append {V : Type u} (d u : PyDict V)
    (hdis : ∀ k, k ∈ PyDict.keys u → PyDict.get? d k = none)
    (hnd : (PyDict.keys u).Nodup) :
    PyDict.update d u = d ++ u := by
  induction u generalizing d with
  | nil => simp [PyDict.update]
  | cons hd tl ih =>
    obtain ⟨k0, v0⟩ := hd
    rw [PyDict.keys_cons, List.nodup_cons] at hnd
    rw [PyDict.update_cons,
        PyDict.set_eq_append _ _ _ (hdis k0 (by rw [PyDict.keys_cons]; exact List.mem_cons_self _ _)),
        ih _ ?_ hnd.2]
    · simp
    · intro k hk
      rw [PyDict.get_append]
      have hd' : PyDict.get? d k = none :=
        hdis k (by rw [PyDict.keys_cons]; exact List.mem_cons_of_mem _ hk)
      have hk0 : k ≠ k0 := fun hEq => hnd.1 (hEq ▸ hk)
      simp [hd', PyDict.get?, hk0]

theorem PyDict.update_nil_left {V : Type u} (u : PyDict V)
    (hnd : (PyDict.keys u).Nodup) : PyDict.update [] u = u := by
  rw [PyDict.update_eq_append [] u (fun k _ => rfl) hnd]
  simp

theorem foldl_update_get_of_none {V : Type u} (outs : List (Ctx V)) (c0 : Ctx V)
    (k : String) (h : ∀ o ∈ outs, PyDict.get? o k = none) :
    PyDict.get? (outs.foldl PyDict.update c0) k = PyDict.get? c0 k := by
  induction outs generalizing c0 with
  | nil => rfl
  | cons o rest ih =>
    rw [List.foldl_cons, ih _ (fun o' ho' => h o' (List.mem_cons_of_mem _ ho'))]
    exact PyDict.update_get_of_none _ _ _ (h o (List.mem_cons_self _ _))

theorem foldl_update_get_last {V : Type u} (pre : List (Ctx V)) (o : Ctx V)
    (post : List (Ctx V)) (c0 : Ctx V) (k : String) (v : V)
    (hnd : (PyDict.keys o).Nodup) (ho : PyDict.get? o k = some v)
    (hpost : ∀ o' ∈ post, PyDict.get? o' k = none) :
    PyDict.get? ((pre ++ o :: post).foldl PyDict.update c0) k = some v := by
  rw [List.foldl_append, List.foldl_cons, foldl_update_get_of_none _ _ _ hpost]
  exact PyDict.update_get_of_mem _ _ _ _ hnd ho

theorem middleware_fold_aux {V : Type u} (outs : List (Ctx V)) (c : Ctx V) :
    (List.foldl
        (fun (st : ReqState V) (p : Processor V) =>
          ⟨some (PyDict.update (st.ctxEntry.getD []) (p st))⟩)
        ⟨some c⟩ (outs.map fun o => fun _ => o)).ctxEntry
      = some (outs.foldl PyDict.update c) := by
  induction outs generalizing c with
  | nil => rfl
  | cons o rest ih => simpa using ih (PyDict.update c o)

theorem middleware_const_eq {V : Type u} (outs : List (Ctx V)) (s : ReqState V) :
    (context_processors_middleware (outs.map fun o => fun _ => o) s).ctxEntry
      = some (outs.foldl PyDict.update (s.ctxEntry.getD [])) := by
  unfold context_processors_middleware
  cases hs : s.ctxEntry with
  | none => simpa using middleware_fold_aux outs []
  | some c => simpa using middleware_fold_aux outs c

/-! Claim theorems. -/

/-- C1: with a configured environment, a resolvable template and a
map-like context (a genuine dict: no duplicate keys), `render_string`
returns exactly the text the engine's render call produces —
`render_async` when the environment is async-capable, `render`
otherwise — applied to the effective context, with no further
transformation.  The effective context is the accumulated per-request
context updated with the handler context whenever the per-request store
holds an accumulated entry (possibly empty), and the handler context
alone otherwise; on the merged context handler-supplied keys win on
conflict (second conjunct). -/
theorem render_string_returns_engine_render {V : Type u} (request : Request V)
    (env : Env V) (tmpl : Template V) (ctx : Ctx V) (template_name app_key : String)
    (henv : PyDict.get? request.config_dict app_key = some env)
    (htmpl : env.get_template template_name = some tmpl)
    (hctx : (PyDict.keys ctx).Nodup) :
    render_string template_name request (.mapping ctx) app_key =
      .ok (match request.ctxEntry with
           | some acc =>
             if env.is_async then tmpl.render_async (PyDict.update acc ctx)
             else tmpl.render (PyDict.update acc ctx)
           | none =>
             if env.is_async then tmpl.render_async ctx else tmpl.render ctx) ∧
    (∀ acc k v, request.ctxEntry = some acc → PyDict.get? ctx k = some v →
        PyDict.get? (PyDict.update acc ctx) k = some v) := by
  constructor
  · unfold render_string
    rw [henv]
    dsimp only
    rw [htmpl]
    dsimp only
    cases hce : request.ctxEntry with
    | none => simp [truthyCtxEntry]
    | some acc =>
      cases acc with
      | nil => simp [truthyCtxEntry, PyDict.update_nil_left ctx hctx]
      | cons hd tl => simp [truthyCtxEntry]
  · intro acc k v _ hget
    exact PyDict.update_get_of_mem _ _ _ _ hctx hget

/-- Witness for C1: on the fixture (accumulated context `k=1`, handler
context `x=2`, sync environment, template showing `x`), `render_string`
yields the engine's sync render of the merged context, and the handler
key is the one looked up. -/
theorem render_string_returns_engine_render_witness :
    render_string "t" sampleRequest (.mapping [("x", (2 : Nat))]) "e" = .ok "2" ∧
    PyDict.get? (PyDict.update [("k", (1 : Nat))] [("x", 2)]) "x" = some 2 := by
  constructor
  · exact (render_string_returns_engine_render sampleRequest sampleEnv sampleTemplate
      [("x", 2)] "t" "e" rfl rfl (by simp [PyDict.keys])).1
  · exact (render_string_returns_engine_render sampleRequest sampleEnv sampleTemplate
      [("x", 2)] "t" "e" rfl rfl (by simp [PyDict.keys])).2 [("k", 1)] "x" 2 rfl rfl

/-- C2: the middleware folds the registered processors strictly in
registration order, each awaited on the request as left behind by its
predecessors, and for processors returning the mappings `outs` the
accumulated per-request context is the left-to-right fold of
`dict.update` over `outs` starting from the (possibly freshly
initialized) entry; on a key collision the value of the last processor
that contributes the key overrides the earlier ones (second
conjunct). -/
theorem middleware_registration_order_fold {V : Type u} (outs : List (Ctx V))
    (s : ReqState V) :
    (context_processors_middleware (outs.map fun o => fun _ => o) s).ctxEntry
      = some (outs.foldl PyDict.update (s.ctxEntry.getD [])) ∧
    (∀ pre o post k v, outs = pre ++ o :: post → (PyDict.keys o).Nodup →
        PyDict.get? o k = some v → (∀ o' ∈ post, PyDict.get? o' k = none) →
        PyDict.get? (outs.foldl PyDict.update (s.ctxEntry.getD [])) k = some v) := by
  constructor
  · exact middleware_const_eq outs s
  · intro pre o post k v hsplit hnd ho hpost
    rw [hsplit]
    exact foldl_update_get_last pre o post _ k v hnd ho hpost

/-- Witness for C2: processors P1 returning `a=1` then P2 returning
`a=2` on a fresh request leave the accumulated context mapping `a` to
`2` (last registered wins). -/
theorem middleware_registration_order_fold_witness :
    (context_processors_middleware
        (([[("a", (1 : Nat))], [("a", 2)]]).map fun o => fun _ => o)
        ⟨none⟩).ctxEntry
      = some (([[("a", (1 : Nat))], [("a", 2)]]).foldl PyDict.update []) ∧
    PyDict.get? (([[("a", (1 : Nat))], [("a", 2)]]).foldl PyDict.update []) "a"
      = some 2 := by
  constructor
  · exact (middleware_registration_order_fold [[("a", 1)], [("a", 2)]] ⟨none⟩).1
  · exact (middleware_registration_order_fold [[("a", 1)], [("a", 2)]] ⟨none⟩).2
      [[("a", 1)]] [("a", 2)] [] "a" 2 rfl (by simp [PyDict.keys]) rfl
      (by intro o' ho'; cases ho')

/-- C10: when the per-request store already holds an accumulated entry
`c0` before the middleware runs, the middleware keeps folding into that
very mapping instead of reinitializing it: the final entry is the fold
of the processor outputs over `c0`; a pre-existing key survives when no
processor returns it, and when some processor does return it (and no
later one does), that processor's value overrides the pre-existing
one. -/
theorem middleware_preserves_preexisting {V : Type u} (c0 : Ctx V)
    (outs : List (Ctx V)) (s : ReqState V) (hs : s.ctxEntry = some c0) :
    (context_processors_middleware (outs.map fun o => fun _ => o) s).ctxEntry
      = some (outs.foldl PyDict.update c0) ∧
    (∀ k, (∀ o ∈ outs, PyDict.get? o k = none) →
        PyDict.get? (outs.foldl PyDict.update c0) k = PyDict.get? c0 k) ∧
    (∀ pre o post k v, outs = pre ++ o :: post → (PyDict.keys o).Nodup →
        PyDict.get? o k = some v → (∀ o' ∈ post, PyDict.get? o' k = none) →
        PyDict.get? (outs.foldl PyDict.update c0) k = some v) := by
  refine ⟨?_, ?_, ?_⟩
  · rw [middleware_const_eq outs s, hs]
    rfl
  · intro k h
    exact foldl_update_get_of_none outs c0 k h
  · intro pre o post k v hsplit hnd ho hpost
    rw [hsplit]
    exact foldl_update_get_last pre o post c0 k v hnd ho hpost

/-- Witness for C10: with pre-existing context `k0=7, a=5` and
processors returning `a=2` then `b=3`, the untouched key `k0` survives
with its original value and the colliding key `a` is overridden to
`2`. -/
theorem middleware_preserves_preexisting_witness :
    (context_processors_middleware
        (([[("a", (2 : Nat))], [("b", 3)]]).map fun o => fun _ => o)
        ⟨some [("k0", 7), ("a", 5)]⟩).ctxEntry
      = some (([[("a", (2 : Nat))], [("b", 3)]]).foldl PyDict.update
          [("k0", 7), ("a", 5)]) ∧
    PyDict.get? (([[("a", (2 : Nat))], [("b", 3)]]).foldl PyDict.update
        [("k0", 7), ("a", 5)]) "k0" = PyDict.get? [("k0", (7 : Nat)), ("a", 5)] "k0" ∧
    PyDict.get? (([[("a", (2 : Nat))], [("b", 3)]]).foldl PyDict.update
        [("k0", 7), ("a", 5)]) "a" = some 2 := by
  refine ⟨?_, ?_, ?_⟩
  · exact (middleware_preserves_preexisting [("k0", 7), ("a", 5)]
      [[("a", 2)], [("b", 3)]] ⟨some [("k0", 7), ("a", 5)]⟩ rfl).1
  · exact (middleware_preserves_preexisting [("k0", 7), ("a", 5)]
      [[("a", 2)], [("b", 3)]] ⟨some [("k0", 7), ("a", 5)]⟩ rfl).2.1 "k0"
      (by intro o ho; simp at ho; rcases ho with h | h <;> subst h <;> rfl)
  · exact (middleware_preserves_preexisting [("k0", 7), ("a", 5)]
      [[("a", 2)], [("b", 3)]] ⟨some [("k0", 7), ("a", 5)]⟩ rfl).2.2
      [] [("a", 2)] [[("b", 3)]] "a" 2 rfl (by simp [PyDict.keys]) rfl
      (by intro o' ho'; simp at ho'; subst ho'; rfl)

/-- C3: when the awaited handler already returned a complete response
object, the wrapped handler returns exactly that object, tagged as a
passthrough; the equation holds for every template name, app key,
encoding, status and argument list — in particular for applications
with no environment configured at all — so no render is involved in
producing the result. -/
theorem template_wrapped_passthrough {V : Type u}
    (template_name app_key encoding : String) (status : Nat)
    (args : List (PosArg V)) (r : Response) :
    template_wrapped template_name app_key encoding status args (.response r)
      = some (.passthrough r) := rfl

/-- C4: whenever the wrapped handler runs the render path to completion
on a context-returning handler, the response it returns carries the
decorator's configured `status`, overriding the status 200 that
`render_template` applied mid-pipeline. -/
theorem template_wrapped_status_override {V : Type u}
    (template_name app_key encoding : String) (status : Nat)
    (args : List (PosArg V)) (c : Option (ContextArg V)) (resp : Response)
    (h : template_wrapped template_name app_key encoding status args (.context c)
          = some (.rendered resp)) :
    resp.status = status := by
  simp only [template_wrapped] at h
  cases hres : resolve_request args with
  | none => rw [hres] at h; exact absurd h (by simp)
  | some pa =>
    rw [hres] at h
    cases pa with
    | viewObj r => simp at h
    | requestObj req =>
      dsimp only at h
      cases hrt : render_template template_name req c app_key encoding 200 with
      | error e => rw [hrt] at h; simp at h
      | ok r0 =>
        rw [hrt] at h
        simp only [Option.some.injEq, WrappedResult.rendered.injEq] at h
        rw [← h]

/-- Witness for C4: a decorator configured with status 201 on a handler
returning the context `x=2` yields a response with status 201. -/
theorem template_wrapped_status_override_witness :
    (⟨201, "text/html", "utf-8", "2"⟩ : Response).status = 201 :=
  template_wrapped_status_override "t" "e" "utf-8" 201
    [.requestObj sampleRequest] (some (.mapping [("x", (2 : Nat))]))
    ⟨201, "text/html", "utf-8", "2"⟩ rfl

/-- C9: on the render path the decorator resolves the request object
thus: when the first positional argument is a class-based view, its
`.request` attribute is the request; otherwise the last positional
argument is. -/
theorem resolve_request_rule {V : Type u} (rest : List (PosArg V)) :
    (∀ r : Request V, resolve_request (.viewObj r :: rest)
        = some (.requestObj r)) ∧
    (∀ r : Request V, resolve_request (.requestObj r :: rest)
        = some ((PosArg.requestObj r :: rest).getLast
            (List.cons_ne_nil _ rest))) := by
  constructor
  · intro r
    rfl
  · intro r
    cases rest <;> rfl

/-- C5: `render_template` treats `context=None` as the empty mapping,
propagates any `render_string` error unchanged, and on success builds a
response with the given status, `content_type = "text/html"`,
`charset = encoding`, and the produced text as body. -/
theorem render_template_builds_response {V : Type u}
    (template_name app_key encoding : String) (status : Nat)
    (request : Request V) (context : Option (ContextArg V)) :
    (render_template template_name request none app_key encoding status
        = render_template template_name request (some (.mapping []))
            app_key encoding status) ∧
    (∀ e, render_string template_name request (context.getD (.mapping []))
            app_key = .error e →
        render_template template_name request context app_key encoding status
          = .error e) ∧
    (∀ text, render_string template_name request (context.getD (.mapping []))
            app_key = .ok text →
        render_template template_name request context app_key encoding status
          = .ok ⟨status, "text/html", encoding, text⟩) := by
  refine ⟨rfl, ?_, ?_⟩
  · intro e he
    simp only [render_template, he]
  · intro text ht
    simp only [render_template, ht]

/-- Witness for C5: on the fixture, rendering with explicit context
`x=2` produces the body `"2"` with status 200, `text/html`, `utf-8`,
and with `context=None` the body falls back to the accumulated context
(here `x` missing, so the template's default `0`). -/
theorem render_template_builds_response_witness :
    render_template "t" sampleRequest (some (.mapping [("x", (2 : Nat))]))
        "e" "utf-8" 200 = .ok ⟨200, "text/html", "utf-8", "2"⟩ ∧
    render_template "t" sampleRequest (none : Option (ContextArg Nat))
        "e" "utf-8" 200
      = render_template "t" sampleRequest (some (.mapping [])) "e" "utf-8" 200 := by
  constructor
  · exact (render_template_builds_response "t" "e" "utf-8" 200 sampleRequest
      (some (.mapping [("x", 2)]))).2.2 "2" rfl
  · exact (render_template_builds_response "t" "e" "utf-8" 200 sampleRequest
      (none : Option (ContextArg Nat))).1

/-- C6: when no environment is stored under `app_key` in the config
view reachable from the request, `render_string` raises the
internal-server error of the ENVIRONMENT_NOT_CONFIGURED site, with one
message — containing the missing key's name — set as both the error's
`reason` and its body `text`. -/
theorem render_string_env_not_configured {V : Type u}
    (template_name app_key : String) (request : Request V)
    (context : ContextArg V)
    (h : PyDict.get? request.config_dict app_key = none) :
    render_string template_name request context app_key
      = .error ⟨.environmentNotConfigured, envNotInitializedMsg app_key,
                envNotInitializedMsg app_key⟩ ∧
    (∃ pre post, envNotInitializedMsg app_key = pre ++ app_key ++ post) := by
  constructor
  · unfold render_string
    rw [h]
  · exact ⟨"Template engine is not initialized, call aiohttp_jinja2.setup(..., app_key=",
           ") first", rfl⟩

/-- Witness for C6: against a request with an empty config view, the
default key produces the ENVIRONMENT_NOT_CONFIGURED error naming it. -/
theorem render_string_env_not_configured_witness :
    render_string "t" (⟨none, []⟩ : Request Nat) (.mapping [])
        "aiohttp_jinja2_environment"
      = .error ⟨.environmentNotConfigured,
                envNotInitializedMsg "aiohttp_jinja2_environment",
                envNotInitializedMsg "aiohttp_jinja2_environment"⟩ ∧
    (∃ pre post, envNotInitializedMsg "aiohttp_jinja2_environment"
        = pre ++ "aiohttp_jinja2_environment" ++ post) :=
  render_string_env_not_configured "t" "aiohttp_jinja2_environment"
    (⟨none, []⟩ : Request Nat) (.mapping []) rfl

/-- C7: with a configured environment, a template name absent from it
makes `render_string` raise the internal-server error of the
TEMPLATE_NOT_FOUND site, with one message — containing the missing
template's name — as both `reason` and body `text`. -/
theorem render_string_template_not_found {V : Type u}
    (template_name app_key : String) (request : Request V) (env : Env V)
    (context : ContextArg V)
    (henv : PyDict.get? request.config_dict app_key = some env)
    (h : env.get_template template_name = none) :
    render_string template_name request context app_key
      = .error ⟨.templateNotFound, templateNotFoundMsg template_name,
                templateNotFoundMsg template_name⟩ ∧
    (∃ pre post, templateNotFoundMsg template_name
        = pre ++ template_name ++ post) := by
  constructor
  · unfold render_string
    rw [henv]
    dsimp only
    rw [h]
  · exact ⟨"Template " ++ squote, squote ++ " not found", rfl⟩

/-- Witness for C7: requesting the absent template `missing` from a
configured environment yields TEMPLATE_NOT_FOUND naming `missing`. -/
theorem render_string_template_not_found_witness :
    render_string "missing" sampleRequest (.mapping []) "e"
      = .error ⟨.templateNotFound, templateNotFoundMsg "missing",
                templateNotFoundMsg "missing"⟩ ∧
    (∃ pre post, templateNotFoundMsg "missing" = pre ++ "missing" ++ post) :=
  render_string_template_not_found "missing" "e" sampleRequest sampleEnv
    (.mapping ([] : Ctx Nat)) rfl rfl

/-- C8: with a configured environment and a resolvable template, a
non-mapping context makes `render_string` raise the internal-server
error of the INVALID_CONTEXT site, with one message — naming the type
actually received — as both `reason` and body `text`. -/
theorem render_string_invalid_context {V : Type u}
    (template_name app_key type_name : String) (request : Request V)
    (env : Env V) (tmpl : Template V)
    (henv : PyDict.get? request.config_dict app_key = some env)
    (htmpl : env.get_template template_name = some tmpl) :
    render_string template_name request (.nonMapping type_name) app_key
      = .error ⟨.invalidContext, contextNotMappingMsg type_name,
                contextNotMappingMsg type_name⟩ ∧
    (∃ pre, contextNotMappingMsg type_name = pre ++ type_name) := by
  constructor
  · unfold render_string
    rw [henv]
    dsimp only
    rw [htmpl]
  · exact ⟨"context should be mapping, not ", rfl⟩

/-- Witness for C8: a plain-sequence context against the fixture yields
INVALID_CONTEXT naming its type display. -/
theorem render_string_invalid_context_witness :
    render_string "t" sampleRequest
        (.nonMapping ("<class " ++ squote ++ "list" ++ squote ++ ">")) "e"
      = .error ⟨.invalidContext,
                contextNotMappingMsg ("<class " ++ squote ++ "list" ++ squote ++ ">"),
                contextNotMappingMsg ("<class " ++ squote ++ "list" ++ squote ++ ">")⟩ ∧
    (∃ pre, contextNotMappingMsg ("<class " ++ squote ++ "list" ++ squote ++ ">")
        = pre ++ ("<class " ++ squote ++ "list" ++ squote ++ ">")) :=
  render_string_invalid_context "t" "e"
    ("<class " ++ squote ++ "list" ++ squote ++ ">")
    sampleRequest sampleEnv sampleTemplate rfl rfl
